import Mathlib

/-!
Verification of the Stock-server backend (`backend.py`) against its
specification.  The Python source is shallowly embedded: pandas data frames
become lists of rows, the third-party data provider (`yfinance`) becomes an
explicit `Provider` record of oracles, Python exceptions become an explicit
`Except PyExn` discipline, and the `functools.lru_cache` decorator becomes an
explicit association-list cache threaded through the handlers together with a
count of body invocations (so that "no second upstream request" is
observable).
-/

set_option autoImplicit false

namespace Backend

/-! ### Python string primitives

Models of the Python string operations the source uses (`str.lower`,
`str.endswith`, `str.split(',')`, `str.strip`), defined over character lists
so that they reduce by kernel evaluation. -/

def pyLower (s : String) : String := String.mk (s.toList.map Char.toLower)

def pyEndsWith (s suffix : String) : Bool := suffix.toList.isSuffixOf s.toList

def splitCommaAux : List Char → List Char → List String
  | [], acc => [String.mk acc.reverse]
  | c :: cs, acc =>
    if c = ',' then String.mk acc.reverse :: splitCommaAux cs []
    else splitCommaAux cs (c :: acc)

def pySplitComma (s : String) : List String := splitCommaAux s.toList []

def pyStrip (s : String) : String :=
  String.mk ((s.toList.dropWhile Char.isWhitespace).reverse.dropWhile Char.isWhitespace).reverse

/-- A Python `dict` literal with string keys, modelled as an association
list; `dictGet d k` is `d.get(k)` (returning `None` on a missing key). -/
def dictGet {α : Type} (d : List (String × α)) (k : String) : Option α :=
  (d.find? (fun e => decide (e.1 = k))).map (fun e => e.2)

/-! ### Data model -/

/-- One row of a pandas historical-data frame after `reset_index()`:
a timestamp plus named numeric fields (Open/High/Low/Close/Volume …). -/
structure Row where
  timestamp : Int
  values : List (String × Int)
deriving DecidableEq

/-- A single-instrument historical frame: a list of rows ordered as returned
by the provider.  `data.empty` in pandas is emptiness of this list. -/
abbrev Series := List Row

/-- The result of `yf.download(..., group_by="ticker")`: either a frame whose
top-level columns are ticker symbols (several tickers) or a flat
single-instrument frame. -/
inductive Frame where
  | grouped (groups : List (String × Series))
  | flat (s : Series)
deriving DecidableEq

/-- `data[ticker]` on a download result: selects the sub-frame of the ticker from a
grouped frame and raises `KeyError` otherwise (a flat OHLCV frame has no
ticker-named column). -/
def frameGet (f : Frame) (t : String) : Except String Series :=
  match f with
  | .grouped gs =>
    match dictGet gs t with
    | some s => .ok s
    | none => .error ("KeyError: " ++ t)
  | .flat _ => .error ("KeyError: " ++ t)

/-- `reset_index().to_dict(orient="records")` on a frame.  The handlers only
apply it to flat frames; on a grouped frame (unreachable in the handlers) it
concatenates the group series. -/
def Frame.toRecords : Frame → List Row
  | .flat s => s
  | .grouped gs => (gs.map (fun g => g.2)).flatten

/-- The result of a raw `yf.download(symbol_list, start=…, end=…)` call:
top-level columns are field names (`Open`, `High`, …), each holding a
per-ticker sub-frame; `data.empty` means every column has no rows. -/
abbrev MultiFrame := List (String × Series)

def MultiFrame.empty (mf : MultiFrame) : Bool := mf.all (fun c => c.2.isEmpty)

/-- The subset of a `yf.Ticker(...).info` dictionary the handlers read. -/
structure Info where
  shortName : Option String
  sector : Option String
  marketCap : Option Int
  category : Option String
  currentPrice : Option Int
  regularMarketPrice : Option Int
deriving DecidableEq

/-- A Python exception as observed by the handlers: either a FastAPI
`HTTPException` (status + detail) or any other exception carrying its
message. -/
inductive PyExn where
  | httpException (status : Nat) (detail : String)
  | error (msg : String)
deriving DecidableEq

/-- `str(e)`: the starlette `HTTPException` string form is
`f"{status_code}: {detail}"`; for ordinary exceptions the message itself. -/
def PyExn.str : PyExn → String
  | .httpException status detail => toString status ++ ": " ++ detail
  | .error msg => msg

/-- `try body except Exception as e: handler e`. -/
def pyTry {α : Type} (body : Except PyExn α) (handler : PyExn → Except PyExn α) :
    Except PyExn α :=
  match body with
  | .ok a => .ok a
  | .error e => handler e

/-- The external data provider (`yfinance`), as an oracle record.  `now` is
`datetime.now()` in whole days; `history` is `yf.Ticker(t).history(period=…,
interval=…)`; `historyRange` is `history(start=…, end=…, interval=…)`;
`download` is `yf.download(" ".join(tickers), period=…, interval=…,
group_by="ticker")`; `downloadRange` is `yf.download(symbol_list, start=…,
end=…, interval=…)`.  An `error` result models the call raising. -/
structure Provider where
  now : Int
  history : String → String → String → Except String Series
  historyRange : String → Option Int → Int → String → Except String Series
  info : String → Except String Info
  download : List String → String → String → Except String Frame
  downloadRange : List String → Option Int → Int → String → Except String MultiFrame

/-! ### Static tables (`TIME_PERIODS`, `EXCHANGE_MAPPING`, `INDICES_MAPPING`,
`FOREX_MAPPING`) -/

def TIME_PERIODS : List (String × Option Nat) :=
  [("30d", some 30), ("90d", some 90), ("1y", some 365), ("all", none)]

def EXCHANGE_MAPPING : List (String × String) :=
  [("nse", ".NS"), ("bse", ".BO"), ("nasdaq", ""), ("nyse", "")]

def INDICES_MAPPING : List (String × String) :=
  [("nifty50", "^NSEI"), ("sensex", "^BSESN"), ("sp500", "^GSPC"), ("dow", "^DJI"),
   ("nasdaq", "^IXIC"), ("ftse", "^FTSE"), ("nikkei", "^N225")]

def FOREX_MAPPING : List (String × String) :=
  [("usd_inr", "USD/INR=X"), ("eur_inr", "EUR/INR=X"), ("gbp_usd", "GBP/USD=X"),
   ("eur_usd", "EUR/USD=X"), ("jpy_usd", "JPY/USD=X")]

/-- `get_date_range(period)`: `days = TIME_PERIODS.get(period, 90)`;
`end = datetime.now()`; `start = None if days is None else end -
timedelta(days=days)`.  Dates are in whole days relative to an epoch. -/
def get_date_range (now : Int) (period : String) : Option Int × Int :=
  let days : Option Nat :=
    match dictGet TIME_PERIODS period with
    | some d => d
    | none => some 90
  match days with
  | none => (none, now)
  | some d => (some (now - (d : Int)), now)

/-! ### Memoized single-instrument fetch (`get_stock_data`) -/

/-- The value computed by the body of `get_stock_data`: the fetched series,
or `None` when the provider call raised. -/
def get_stock_data_value (p : Provider) (ticker period interval : String) : Option Series :=
  match p.history ticker period interval with
  | .ok d => some d
  | .error _ => none

/-- The body of `get_stock_data` under explicit exception semantics: the
provider call sits inside `try … except Exception: return None`. -/
def get_stock_data_uncached (p : Provider) (ticker period interval : String) :
    Except PyExn (Option Series) :=
  pyTry ((p.history ticker period interval).mapError PyExn.error |>.map some)
    (fun _ => .ok none)

/-- `@lru_cache(maxsize=…)` key: the exact argument triple. -/
abbrev Key := String × String × String

/-- The lru_cache table, most-recently-used first. -/
abbrev Cache := List (Key × Option Series)

/-- One call through `@lru_cache(maxsize)` applied to `get_stock_data`:
returns the value, the new cache, and how many times the wrapped body (and
hence the upstream provider) was invoked (`0` on a hit, `1` on a miss).  On a
hit the entry moves to the most-recently-used position; on a miss the fresh
entry is inserted and the least-recently-used entry is dropped once the
capacity is exceeded. -/
def get_stock_data_cached (maxsize : Nat) (p : Provider) (st : Cache) (k : Key) :
    Option Series × Cache × Nat :=
  match st.find? (fun e => decide (e.1 = k)) with
  | some e => (e.2, (k, e.2) :: st.eraseP (fun e => decide (e.1 = k)), 0)
  | none =>
    let v := get_stock_data_value p k.1 k.2.1 k.2.2
    (v, ((k, v) :: st).take maxsize, 1)

/-! ### Batch fetch (`get_multiple_stocks`) -/

/-- The `for ticker in tickers: results[ticker] = …` accumulation loop: an
exception raised at any iteration aborts the loop, discarding all partial
results. -/
def collectResults {β : Type} (f : String → Except String β) :
    List String → Except String (List β)
  | [] => .ok []
  | t :: ts =>
    match f t with
    | .error e => .error e
    | .ok r =>
      match collectResults f ts with
      | .error e => .error e
      | .ok rs => .ok (r :: rs)

/-- `get_multiple_stocks(tickers, period, interval)`: one combined
`yf.download(..., group_by="ticker")` call; with more than one ticker each
`results[ticker] = data[ticker]` (which may raise `KeyError`), with exactly
one ticker `results[ticker] = data`; any raised exception is caught and the
whole call returns `None`. -/
def get_multiple_stocks (p : Provider) (tickers : List String) (period interval : String) :
    Option (List (String × Frame)) :=
  match p.download tickers period interval with
  | .error _ => none
  | .ok data =>
    match collectResults (fun t =>
        if tickers.length > 1 then (frameGet data t).map (fun s => (t, Frame.flat s))
        else .ok (t, data)) tickers with
    | .ok results => some results
    | .error _ => none

/-! ### HTTP layer -/

/-- A FastAPI handler outcome: a 200 JSON payload, or an error response with a
status code and a free-text `detail` body. -/
inductive Response (α : Type) where
  | ok (payload : α)
  | err (status : Nat) (detail : String)
deriving DecidableEq

def Response.status {α : Type} : Response α → Nat
  | .ok _ => 200
  | .err s _ => s

/-- The exchange-suffix step of `/stock/{symbol}`: `if exchange and
exchange.lower() in EXCHANGE_MAPPING: if not
symbol.endswith(EXCHANGE_MAPPING[exchange.lower()]): symbol +=
EXCHANGE_MAPPING[exchange.lower()]`. -/
def applyExchangeSuffix (symbol : String) (exchange : Option String) : String :=
  match exchange with
  | none => symbol
  | some ex =>
    if ex = "" then symbol
    else
      match dictGet EXCHANGE_MAPPING (pyLower ex) with
      | none => symbol
      | some suf => if pyEndsWith symbol suf then symbol else symbol ++ suf

/-- The `/stock/{symbol}` 200-response body. -/
structure StockPayload where
  symbol : String
  name : String
  sector : String
  market_cap : Option Int
  live_price : Option Int
  period : String
  interval : String
  data : List Row
deriving DecidableEq

/-- A handler run: the HTTP response, the lru_cache state after the request,
whether the direct uncached fall-back provider call was made, and how many
times the memoized fetch invoked its body (0 = pure cache hit). -/
structure HandlerResult (α : Type) where
  response : Response α
  cache : Cache
  fellBack : Bool
  bodyCalls : Nat
deriving DecidableEq

/-- The `try`-block of `get_stock_data_endpoint`: apply the exchange suffix,
resolve the date range, consult the memoized fetch, fall back to a direct
`stock.history(start=…, end=…)` call when it returned `None`, read
`stock.info`, raise 404 on an empty frame, else build the payload. -/
def stock_endpoint_body (maxsize : Nat) (p : Provider) (st : Cache)
    (symbol period interval : String) (exchange : Option String) :
    Except PyExn StockPayload × Cache × Bool × Nat :=
  let sym := applyExchangeSuffix symbol exchange
  let startEnd := get_date_range p.now period
  let fetched := get_stock_data_cached maxsize p st (sym, period, interval)
  let st1 := fetched.2.1
  let fellBack := fetched.1.isNone
  let dataE : Except String Series :=
    match fetched.1 with
    | some d => .ok d
    | none => p.historyRange sym startEnd.1 startEnd.2 interval
  match dataE with
  | .error m => (.error (.error m), st1, fellBack, fetched.2.2)
  | .ok data =>
    match p.info sym with
    | .error m => (.error (.error m), st1, fellBack, fetched.2.2)
    | .ok info =>
      if data.isEmpty then
        (.error (.httpException 404 ("No data found for " ++ sym ++ ".")), st1, fellBack, fetched.2.2)
      else
        (.ok { symbol := sym
               name := info.shortName.getD "Unknown"
               sector := info.sector.getD "Unknown"
               market_cap := info.marketCap
               live_price := match info.currentPrice with
                             | some v => some v
                             | none => info.regularMarketPrice
               period := period
               interval := interval
               data := data }, st1, fellBack, fetched.2.2)

/-- `get_stock_data_endpoint`: the `try`-block wrapped in `except Exception
as e: raise HTTPException(status_code=500, detail=str(e))` — note that this
handler also catches the 404 `HTTPException` raised inside the `try`. -/
def get_stock_data_endpoint (maxsize : Nat) (p : Provider) (st : Cache)
    (symbol period interval : String) (exchange : Option String) :
    HandlerResult StockPayload :=
  match stock_endpoint_body maxsize p st symbol period interval exchange with
  | (.ok payload, st1, fb, n) => ⟨.ok payload, st1, fb, n⟩
  | (.error e, st1, fb, n) => ⟨.err 500 (PyExn.str e), st1, fb, n⟩

/-- The `/forex/{pair}` 200-response body. -/
structure ForexPayload where
  symbol : String
  name : String
  live_rate : Option Int
  period : String
  interval : String
  data : List Row
deriving DecidableEq

/-- Forex symbol resolution: `symbol = FOREX_MAPPING.get(pair.lower(), pair)`
then append `=X` unless already present. -/
def resolveForexSymbol (pair : String) : String :=
  let symbol := (dictGet FOREX_MAPPING (pyLower pair)).getD pair
  if pyEndsWith symbol "=X" then symbol else symbol ++ "=X"

/-- The `try`-block of `get_forex_data`: resolve the pair, read `forex.info`
(before the history fetch), resolve the date range, consult the memoized
fetch, fall back to a direct ranged call on `None`, raise 404 on an empty
frame, else build the payload. -/
def forex_endpoint_body (maxsize : Nat) (p : Provider) (st : Cache)
    (pair period interval : String) :
    Except PyExn ForexPayload × Cache × Bool × Nat :=
  let symbol := resolveForexSymbol pair
  match p.info symbol with
  | .error m => (.error (.error m), st, false, 0)
  | .ok info =>
    let startEnd := get_date_range p.now period
    let fetched := get_stock_data_cached maxsize p st (symbol, period, interval)
    let st1 := fetched.2.1
    let fellBack := fetched.1.isNone
    match (match fetched.1 with
           | some d => Except.ok d
           | none => p.historyRange symbol startEnd.1 startEnd.2 interval) with
    | .error m => (.error (.error m), st1, fellBack, fetched.2.2)
    | .ok data =>
      if data.isEmpty then
        (.error (.httpException 404 ("No data found for forex pair " ++ pair ++ ".")),
         st1, fellBack, fetched.2.2)
      else
        (.ok { symbol := symbol
               name := info.shortName.getD symbol
               live_rate := info.regularMarketPrice
               period := period
               interval := interval
               data := data }, st1, fellBack, fetched.2.2)

/-- `get_forex_data`: the `try`-block wrapped in the blanket 500 handler. -/
def get_forex_data (maxsize : Nat) (p : Provider) (st : Cache)
    (pair period interval : String) : HandlerResult ForexPayload :=
  match forex_endpoint_body maxsize p st pair period interval with
  | (.ok payload, st1, fb, n) => ⟨.ok payload, st1, fb, n⟩
  | (.error e, st1, fb, n) => ⟨.err 500 (PyExn.str e), st1, fb, n⟩

/-- The `/index/{symbol}` 200-response body. -/
structure IndexPayload where
  symbol : String
  name : String
  live_value : Option Int
  period : String
  interval : String
  data : List Row
deriving DecidableEq

/-- The `try`-block of `get_index_data` (the alias lookup
`INDICES_MAPPING.get(symbol.lower(), symbol)` happens before the `try`, but
cannot raise). -/
def index_endpoint_body (maxsize : Nat) (p : Provider) (st : Cache)
    (symbol period interval : String) :
    Except PyExn IndexPayload × Cache × Bool × Nat :=
  let actual := (dictGet INDICES_MAPPING (pyLower symbol)).getD symbol
  match p.info actual with
  | .error m => (.error (.error m), st, false, 0)
  | .ok info =>
    let startEnd := get_date_range p.now period
    let fetched := get_stock_data_cached maxsize p st (actual, period, interval)
    let st1 := fetched.2.1
    let fellBack := fetched.1.isNone
    match (match fetched.1 with
           | some d => Except.ok d
           | none => p.historyRange actual startEnd.1 startEnd.2 interval) with
    | .error m => (.error (.error m), st1, fellBack, fetched.2.2)
    | .ok data =>
      if data.isEmpty then
        (.error (.httpException 404 ("No data found for index " ++ symbol ++ ".")),
         st1, fellBack, fetched.2.2)
      else
        (.ok { symbol := actual
               name := info.shortName.getD actual
               live_value := info.regularMarketPrice
               period := period
               interval := interval
               data := data }, st1, fellBack, fetched.2.2)

/-- `get_index_data`: the `try`-block wrapped in the blanket 500 handler. -/
def get_index_data (maxsize : Nat) (p : Provider) (st : Cache)
    (symbol period interval : String) : HandlerResult IndexPayload :=
  match index_endpoint_body maxsize p st symbol period interval with
  | (.ok payload, st1, fb, n) => ⟨.ok payload, st1, fb, n⟩
  | (.error e, st1, fb, n) => ⟨.err 500 (PyExn.str e), st1, fb, n⟩

/-- The `/mutual-fund/{symbol}` 200-response body. -/
structure FundPayload where
  symbol : String
  name : String
  category : String
  live_nav : Option Int
  period : String
  interval : String
  data : List Row
deriving DecidableEq

/-- The `try`-block of `get_mutual_fund_data`. -/
def fund_endpoint_body (maxsize : Nat) (p : Provider) (st : Cache)
    (symbol period interval : String) :
    Except PyExn FundPayload × Cache × Bool × Nat :=
  match p.info symbol with
  | .error m => (.error (.error m), st, false, 0)
  | .ok info =>
    let startEnd := get_date_range p.now period
    let fetched := get_stock_data_cached maxsize p st (symbol, period, interval)
    let st1 := fetched.2.1
    let fellBack := fetched.1.isNone
    match (match fetched.1 with
           | some d => Except.ok d
           | none => p.historyRange symbol startEnd.1 startEnd.2 interval) with
    | .error m => (.error (.error m), st1, fellBack, fetched.2.2)
    | .ok data =>
      if data.isEmpty then
        (.error (.httpException 404 ("No data found for mutual fund " ++ symbol ++ ".")),
         st1, fellBack, fetched.2.2)
      else
        (.ok { symbol := symbol
               name := info.shortName.getD "Unknown"
               category := info.category.getD "Unknown"
               live_nav := info.regularMarketPrice
               period := period
               interval := interval
               data := data }, st1, fellBack, fetched.2.2)

/-- `get_mutual_fund_data`: the `try`-block wrapped in the blanket 500
handler. -/
def get_mutual_fund_data (maxsize : Nat) (p : Provider) (st : Cache)
    (symbol period interval : String) : HandlerResult FundPayload :=
  match fund_endpoint_body maxsize p st symbol period interval with
  | (.ok payload, st1, fb, n) => ⟨.ok payload, st1, fb, n⟩
  | (.error e, st1, fb, n) => ⟨.err 500 (PyExn.str e), st1, fb, n⟩

/-- The `/compare/` 200-response body: either the multi-symbol shape
(`"symbols"` plus a mapping whose keys are ticker symbols or field names) or
the single-symbol shape (`"symbol"` plus one record list). -/
inductive CompareResponse where
  | multi (symbols : List String) (period interval : String) (data : List (String × List Row))
  | single (symbol : String) (period interval : String) (data : List Row)
deriving DecidableEq

/-- The field list `["Open", "High", "Low", "Close", "Volume"]` iterated by
the compare fall-back path. -/
def OHLCV_FIELDS : List String := ["Open", "High", "Low", "Close", "Volume"]

/-- The compare fall-back path: `data = yf.download(symbol_list, start=…,
end=…, interval=…)`; 404 when `data.empty`; else one record list per OHLCV
field present in the top column level. -/
def compare_fallback (p : Provider) (symbol_list : List String)
    (startd : Option Int) (endd : Int) (period interval : String) (st : Cache) :
    Except PyExn CompareResponse × Cache :=
  match p.downloadRange symbol_list startd endd interval with
  | .error m => (.error (.error m), st)
  | .ok data =>
    if data.empty then
      (.error (.httpException 404 "No data found for the specified symbols."), st)
    else
      (.ok (.multi symbol_list period interval
        (OHLCV_FIELDS.filterMap (fun f => (dictGet data f).map (fun s => (f, s))))), st)

/-- The `try`-block of `compare_instruments`: split and strip the comma list;
with more than one symbol prefer `get_multiple_stocks`, falling back to the
raw download when it returned a falsy value (`None`; an empty dict cannot
occur with a non-empty symbol list); with one symbol reuse the memoized
fetch with its direct-call fall-back, with no empty-frame check. -/
def compare_body (maxsize : Nat) (p : Provider) (st : Cache)
    (symbols period interval : String) : Except PyExn CompareResponse × Cache :=
  let symbol_list := (pySplitComma symbols).map pyStrip
  let startEnd := get_date_range p.now period
  if symbol_list.length > 1 then
    match get_multiple_stocks p symbol_list period interval with
    | none => compare_fallback p symbol_list startEnd.1 startEnd.2 period interval st
    | some [] => compare_fallback p symbol_list startEnd.1 startEnd.2 period interval st
    | some (r :: rs) =>
      (.ok (.multi symbol_list period interval
        ((r :: rs).map (fun e => (e.1, Frame.toRecords e.2)))), st)
  else
    match symbol_list with
    | [] => (.error (.error "IndexError: list index out of range"), st)
    | s0 :: _ =>
      let fetched := get_stock_data_cached maxsize p st (s0, period, interval)
      match (match fetched.1 with
             | some d => Except.ok d
             | none => p.historyRange s0 startEnd.1 startEnd.2 interval) with
      | .error m => (.error (.error m), fetched.2.1)
      | .ok data => (.ok (.single s0 period interval data), fetched.2.1)

/-- `compare_instruments`: the `try`-block wrapped in the blanket 500
handler. -/
def compare_instruments (maxsize : Nat) (p : Provider) (st : Cache)
    (symbols period interval : String) : Response CompareResponse × Cache :=
  match compare_body maxsize p st symbols period interval with
  | (.ok payload, st1) => (.ok payload, st1)
  | (.error e, st1) => (.err 500 (PyExn.str e), st1)

/-- One entry of the curated popular-funds catalogue. -/
structure Fund where
  name : String
  symbol : String
deriving DecidableEq

/-- The static `popular_funds` dictionary from
`get_popular_indian_mutual_funds`. -/
def popular_funds : List (String × List Fund) :=
  [("equity",
    [⟨"HDFC Top 100 Fund", "0P0000XVOI.BO"⟩,
     ⟨"SBI Bluechip Fund", "0P0000YCNI.BO"⟩,
     ⟨"Axis Bluechip Fund", "0P0000Z5X9.BO"⟩,
     ⟨"Mirae Asset Large Cap Fund", "0P0000YD2F.BO"⟩]),
   ("debt",
    [⟨"HDFC Corporate Bond Fund", "0P0000YWLG.BO"⟩,
     ⟨"SBI Corporate Bond Fund", "0P0000ZM1O.BO"⟩,
     ⟨"Kotak Corporate Bond Fund", "0P0000Y5QE.BO"⟩]),
   ("hybrid",
    [⟨"ICICI Prudential Balanced Advantage Fund", "0P0000XVE2.BO"⟩,
     ⟨"HDFC Balanced Advantage Fund", "0P0000XV7Y.BO"⟩])]

/-- The `/mutual-funds/india/popular` response: one curated list for a
recognized category, or the whole category-to-list mapping otherwise. -/
inductive FundsResponse where
  | singleCategory (funds : List Fund)
  | allCategories (funds : List (String × List Fund))
deriving DecidableEq

/-- `get_popular_indian_mutual_funds(category)`: `if category and
category.lower() in popular_funds: return {"funds":
popular_funds[category.lower()]}` else return the whole mapping.  This
handler performs no provider call (it takes no `Provider`) and has no
`try`/`except`. -/
def get_popular_indian_mutual_funds (category : Option String) : FundsResponse :=
  match category with
  | none => .allCategories popular_funds
  | some c =>
    if c = "" then .allCategories popular_funds
    else
      match dictGet popular_funds (pyLower c) with
      | some funds => .singleCategory funds
      | none => .allCategories popular_funds

/-! ### Concrete providers and data used by counterexamples and witnesses -/

def infoUnknown : Info := ⟨none, none, none, none, none, none⟩

def rowA : Row := ⟨1, [("Close", 101)]⟩

def rowM : Row := ⟨1, [("Close", 201)]⟩

def rowNS : Row := ⟨2, [("Close", 301)]⟩

/-- A provider whose every historical query succeeds with an empty frame and
whose `info` call succeeds: the "resolved symbol yields an empty series"
scenario. -/
def pEmpty : Provider where
  now := 0
  history := fun _ _ _ => .ok []
  historyRange := fun _ _ _ _ => .ok []
  info := fun _ => .ok infoUnknown
  download := fun _ _ _ => .error "download unavailable"
  downloadRange := fun _ _ _ _ => .error "download unavailable"

/-- A provider whose every data call raises: the "transient provider outage"
scenario. -/
def pBoom : Provider where
  now := 0
  history := fun _ _ _ => .error "boom"
  historyRange := fun _ _ _ _ => .error "boom"
  info := fun _ => .ok infoUnknown
  download := fun _ _ _ => .error "boom"
  downloadRange := fun _ _ _ _ => .error "boom"

/-- A provider serving a grouped batch download for `AAPL` and `MSFT`. -/
def pDemo : Provider where
  now := 0
  history := fun _ _ _ => .ok [rowA]
  historyRange := fun _ _ _ _ => .ok [rowA]
  info := fun _ => .ok infoUnknown
  download := fun ts _ _ =>
    if ts = ["AAPL", "MSFT"] then
      .ok (.grouped [("AAPL", [rowA]), ("MSFT", [rowM])])
    else .error "bad tickers"
  downloadRange := fun _ _ _ _ => .error "download unavailable"

/-- A provider whose batch download succeeds with a flat (ungrouped)
frame. -/
def pFlat : Provider where
  now := 0
  history := fun _ _ _ => .ok [rowA]
  historyRange := fun _ _ _ _ => .ok [rowA]
  info := fun _ => .ok infoUnknown
  download := fun _ _ _ => .ok (.flat [rowA])
  downloadRange := fun _ _ _ _ => .error "download unavailable"

/-- A provider whose batch download raises but whose raw ranged download
succeeds with a one-field frame, driving the compare fall-back path. -/
def pFallback : Provider where
  now := 0
  history := fun _ _ _ => .error "boom"
  historyRange := fun _ _ _ _ => .error "boom"
  info := fun _ => .ok infoUnknown
  download := fun _ _ _ => .error "batch failed"
  downloadRange := fun _ _ _ _ => .ok [("Close", [rowA])]

/-- A provider distinguishing `RELIANCE.NS` from every other symbol, to make
the upstream-queried symbol observable in the response. -/
def pNS : Provider where
  now := 0
  history := fun t _ _ => if t = "RELIANCE.NS" then .ok [rowNS] else .ok [rowA]
  historyRange := fun _ _ _ _ => .ok []
  info := fun _ => .ok infoUnknown
  download := fun _ _ _ => .error "download unavailable"
  downloadRange := fun _ _ _ _ => .error "download unavailable"

/-! ### Helper lemmas -/

/-- The `TIME_PERIODS.get` lookup as an if-chain over the four keys. -/
theorem dictGet_TIME_PERIODS (period : String) :
    dictGet TIME_PERIODS period =
      if period = "30d" then some (some 30)
      else if period = "90d" then some (some 90)
      else if period = "1y" then some (some 365)
      else if period = "all" then some none
      else none := by
  by_cases h1 : period = "30d" <;> by_cases h2 : period = "90d" <;>
    by_cases h3 : period = "1y" <;> by_cases h4 : period = "all" <;>
      simp [dictGet, TIME_PERIODS, List.find?, h1, h2, h3, h4, eq_comm]

/-! ### Claims -/

/-- Claim C9 (confirmed): for every provider and every argument triple, the
body of `get_stock_data` under explicit exception semantics terminates
normally — it never propagates an exception — and its value is the fetched
series on provider success and the failure sentinel `None` on provider
failure. -/
theorem get_stock_data_never_raises (p : Provider) (ticker period interval : String) :
    get_stock_data_uncached p ticker period interval =
      .ok (get_stock_data_value p ticker period interval) := by
  cases hp : p.history ticker period interval <;>
    simp [get_stock_data_uncached, get_stock_data_value, pyTry, hp, Except.mapError, Except.map]

/-- Claim C4 (confirmed): the date-range resolver always returns `end = now`;
`start` is `None` exactly for the token `all`; the tokens `30d`, `90d`, `1y`
subtract 30, 90 and 365 days respectively; and every token outside the
enumerated set falls back to the 90-day default.  The resolver is a total
function, so it raises on no input. -/
theorem get_date_range_spec (now : Int) (period : String) :
    (get_date_range now period).2 = now ∧
    ((get_date_range now period).1 = none ↔ period = "all") ∧
    get_date_range now "30d" = (some (now - 30), now) ∧
    get_date_range now "90d" = (some (now - 90), now) ∧
    get_date_range now "1y" = (some (now - 365), now) ∧
    (period ∉ (["30d", "90d", "1y", "all"] : List String) →
      get_date_range now period = (some (now - 90), now)) := by
  have h := dictGet_TIME_PERIODS period
  by_cases h1 : period = "30d" <;> by_cases h2 : period = "90d" <;>
    by_cases h3 : period = "1y" <;> by_cases h4 : period = "all" <;>
      simp_all [get_date_range, h, dictGet_TIME_PERIODS]

/-- Witness for C4 at the unrecognized token `7d`. -/
theorem get_date_range_spec_witness :
    ("7d" ∉ (["30d", "90d", "1y", "all"] : List String)) ∧
    get_date_range 0 "7d" = (some (-90), 0) := by
  refine ⟨by decide, ?_⟩
  have h := (get_date_range_spec 0 "7d").2.2.2.2.2 (by decide)
  simpa using h

/-- Claim C8 (confirmed): `/mutual-funds/india/popular?category=equity`
returns exactly the curated four-entry equity list.  The handler
`get_popular_indian_mutual_funds` takes no `Provider` argument: no upstream
call is involved in producing the response. -/
theorem popular_funds_equity :
    get_popular_indian_mutual_funds (some "equity") =
      .singleCategory
        [⟨"HDFC Top 100 Fund", "0P0000XVOI.BO"⟩,
         ⟨"SBI Bluechip Fund", "0P0000YCNI.BO"⟩,
         ⟨"Axis Bluechip Fund", "0P0000Z5X9.BO"⟩,
         ⟨"Mirae Asset Large Cap Fund", "0P0000YD2F.BO"⟩] ∧
    dictGet popular_funds "equity" =
      some [⟨"HDFC Top 100 Fund", "0P0000XVOI.BO"⟩,
            ⟨"SBI Bluechip Fund", "0P0000YCNI.BO"⟩,
            ⟨"Axis Bluechip Fund", "0P0000Z5X9.BO"⟩,
            ⟨"Mirae Asset Large Cap Fund", "0P0000YD2F.BO"⟩] := by
  exact ⟨rfl, rfl⟩

/-- Claim C10 (confirmed): with the category parameter absent, or set to any
value whose lower-casing is outside `{equity, debt, hybrid}`, the popular-funds
handler returns the complete three-category mapping, and that response is a
different shape (a different constructor) from the single-list response of a
recognized category. -/
theorem popular_funds_fallthrough (c : String) :
    get_popular_indian_mutual_funds none = .allCategories popular_funds ∧
    (pyLower c ∉ (["equity", "debt", "hybrid"] : List String) →
      get_popular_indian_mutual_funds (some c) = .allCategories popular_funds) ∧
    (∀ funds : List Fund,
      FundsResponse.allCategories popular_funds ≠ .singleCategory funds) := by
  refine ⟨rfl, ?_, fun funds h => by cases h⟩
  intro hc
  simp only [List.mem_cons, List.not_mem_nil, or_false, not_or] at hc
  obtain ⟨n1, n2, n3⟩ := hc
  have m1 : ¬("equity" = pyLower c) := fun h => n1 h.symm
  have m2 : ¬("debt" = pyLower c) := fun h => n2 h.symm
  have m3 : ¬("hybrid" = pyLower c) := fun h => n3 h.symm
  by_cases h0 : c = ""
  · simp [get_popular_indian_mutual_funds, h0]
  · simp [get_popular_indian_mutual_funds, h0, dictGet, popular_funds, List.find?,
      m1, m2, m3]

/-- Witness for C10 at the unrecognized category `crypto`. -/
theorem popular_funds_fallthrough_witness :
    get_popular_indian_mutual_funds (some "crypto") = .allCategories popular_funds := by
  exact (popular_funds_fallthrough "crypto").2.1 (by decide)

/-- Claim C2 (confirmed): when the first call on a key meets a provider
failure, the failure sentinel is cached: the first call returns `None` and
invokes the body once, the immediately following call on the same key returns
the cached `None` and invokes the body — hence the upstream provider — zero
times, and in general any call whose key is present in the cache returns the
stored value with zero body invocations (so the sentinel is served until the
entry is evicted). -/
theorem failure_cached_no_retry (maxsize : Nat) (p : Provider) (st0 : Cache)
    (t per intv msg : String) (hmax : 1 ≤ maxsize)
    (hfail : p.history t per intv = .error msg)
    (hmiss : st0.find? (fun e => decide (e.1 = (t, per, intv))) = none) :
    (get_stock_data_cached maxsize p st0 (t, per, intv)).1 = none ∧
    (get_stock_data_cached maxsize p st0 (t, per, intv)).2.2 = 1 ∧
    (get_stock_data_cached maxsize p
        (get_stock_data_cached maxsize p st0 (t, per, intv)).2.1 (t, per, intv)).1 = none ∧
    (get_stock_data_cached maxsize p
        (get_stock_data_cached maxsize p st0 (t, per, intv)).2.1 (t, per, intv)).2.2 = 0 ∧
    (∀ (st : Cache) (e : Key × Option Series),
      st.find? (fun e => decide (e.1 = (t, per, intv))) = some e →
      (get_stock_data_cached maxsize p st (t, per, intv)).1 = e.2 ∧
      (get_stock_data_cached maxsize p st (t, per, intv)).2.2 = 0) := by
  have hval : get_stock_data_value p t per intv = none := by
    simp [get_stock_data_value, hfail]
  have hfirst : get_stock_data_cached maxsize p st0 (t, per, intv) =
      (none, (((t, per, intv), none) :: st0).take maxsize, 1) := by
    simp [get_stock_data_cached, hmiss, hval]
  obtain ⟨m, rfl⟩ : ∃ m, maxsize = m + 1 := ⟨maxsize - 1, (Nat.succ_pred_eq_of_pos hmax).symm⟩
  have hsecond : ((((t, per, intv), (none : Option Series)) :: st0).take (m + 1)).find?
      (fun e => decide (e.1 = (t, per, intv))) = some ((t, per, intv), none) := by
    simp [List.take_succ_cons, List.find?]
  refine ⟨by simp [hfirst], by simp [hfirst], ?_, ?_, ?_⟩
  · rw [hfirst]
    simp [get_stock_data_cached, hsecond]
  · rw [hfirst]
    simp [get_stock_data_cached, hsecond]
  · intro st e hhit
    simp [get_stock_data_cached, hhit]

/-- Witness for C2: an outage provider, an empty cache, and the source
capacity 1000. -/
theorem failure_cached_no_retry_witness :
    (get_stock_data_cached 1000 pBoom [] ("AAPL", "90d", "1d")).1 = none ∧
    (get_stock_data_cached 1000 pBoom [] ("AAPL", "90d", "1d")).2.2 = 1 ∧
    (get_stock_data_cached 1000 pBoom
        (get_stock_data_cached 1000 pBoom [] ("AAPL", "90d", "1d")).2.1 ("AAPL", "90d", "1d")).1 = none ∧
    (get_stock_data_cached 1000 pBoom
        (get_stock_data_cached 1000 pBoom [] ("AAPL", "90d", "1d")).2.1 ("AAPL", "90d", "1d")).2.2 = 0 := by
  have h := failure_cached_no_retry 1000 pBoom [] "AAPL" "90d" "1d" "boom"
    (by decide) rfl rfl
  exact ⟨h.1, h.2.1, h.2.2.1, h.2.2.2.1⟩

/-- Auxiliary for C5: mapping the per-ticker extraction over a grouped frame
succeeds ticker-wise when every ticker is present in the group table. -/
theorem collectResults_frameGet_grouped (gs : List (String × Series)) (σ : String → Series)
    (l : List String) (hl : ∀ t ∈ l, dictGet gs t = some (σ t)) :
    collectResults (fun t => (frameGet (.grouped gs) t).map (fun s => (t, Frame.flat s))) l =
      .ok (l.map (fun t => (t, Frame.flat (σ t)))) := by
  induction l with
  | nil => rfl
  | cons a l ih =>
    have ha := hl a (by simp)
    have hfa : (frameGet (.grouped gs) a).map (fun s => (a, Frame.flat s)) =
        .ok (a, Frame.flat (σ a)) := by
      simp [frameGet, ha, Except.map]
    have ih2 := ih (fun t ht => hl t (by simp [ht]))
    simp only [collectResults, hfa, ih2, List.map_cons]

/-- Auxiliary for C5: a successful collection loop whose function tags each
result with its ticker yields exactly one entry per requested ticker, in
order. -/
theorem collectResults_keys_eq {β : Type} (f : String → Except String (String × β))
    (hf : ∀ t r, f t = .ok r → r.1 = t) :
    ∀ (l : List String) (rs : List (String × β)),
      collectResults f l = .ok rs → rs.map Prod.fst = l := by
  intro l
  induction l with
  | nil => intro rs h; cases h; rfl
  | cons a l ih =>
    intro rs h
    cases hfa : f a with
    | error e => simp [collectResults, hfa] at h
    | ok r =>
      cases hrest : collectResults f l with
      | error e => simp [collectResults, hfa, hrest] at h
      | ok rs0 =>
        simp only [collectResults, hfa, hrest] at h
        cases h
        simp [hf a r hfa, ih rs0 hrest]

/-- Claim C5 (confirmed): the batch fetch consults the provider through the
single combined download of the requested ticker list only (its result is
determined by that one value); with more than one ticker the grouped table is
split into one series per requested ticker; with exactly one ticker the
ungrouped result is used directly; on a raising download the whole batch is
the absence sentinel; and any non-absent result carries exactly the requested
tickers (no partial results). -/
theorem get_multiple_stocks_spec (p : Provider) (tickers : List String)
    (period intv : String) (gs : List (String × Series)) (σ : String → Series) :
    (∀ msg, p.download tickers period intv = .error msg →
      get_multiple_stocks p tickers period intv = none) ∧
    (tickers.length > 1 → p.download tickers period intv = .ok (.grouped gs) →
      (∀ t ∈ tickers, dictGet gs t = some (σ t)) →
      get_multiple_stocks p tickers period intv =
        some (tickers.map (fun t => (t, Frame.flat (σ t))))) ∧
    (∀ t f, tickers = [t] → p.download tickers period intv = .ok f →
      get_multiple_stocks p tickers period intv = some [(t, f)]) ∧
    (∀ q : Provider, p.download tickers period intv = q.download tickers period intv →
      get_multiple_stocks p tickers period intv = get_multiple_stocks q tickers period intv) ∧
    (∀ rs, get_multiple_stocks p tickers period intv = some rs →
      rs.map Prod.fst = tickers) := by
  refine ⟨?_, ?_, ?_, ?_, ?_⟩
  · intro msg hdl
    simp [get_multiple_stocks, hdl]
  · intro hlen hdl hkeys
    have hmm := collectResults_frameGet_grouped gs σ tickers hkeys
    simp only [get_multiple_stocks, hdl, hlen, if_true]
    rw [hmm]
  · intro t f ht hdl
    subst ht
    simp [get_multiple_stocks, hdl, collectResults]
  · intro q hdq
    simp only [get_multiple_stocks, hdq]
  · intro rs hrs
    unfold get_multiple_stocks at hrs
    cases hdl : p.download tickers period intv with
    | error e => simp [hdl] at hrs
    | ok data =>
      rw [hdl] at hrs
      cases hmm : collectResults (fun t =>
          if tickers.length > 1 then (frameGet data t).map (fun s => (t, Frame.flat s))
          else .ok (t, data)) tickers with
      | error e => simp [hmm] at hrs
      | ok results =>
        simp only [hmm, Option.some.injEq] at hrs
        subst hrs
        refine collectResults_keys_eq _ ?_ tickers results hmm
        intro t r hr
        by_cases hl : tickers.length > 1
        · rw [if_pos hl] at hr
          cases hg : frameGet data t with
          | error e => simp [hg, Except.map] at hr
          | ok s =>
            rw [hg] at hr
            simp [Except.map] at hr
            rw [← hr]
        · rw [if_neg hl] at hr
          cases hr
          rfl

/-- Witness for C5: the grouped `AAPL`/`MSFT` demo download split per ticker,
the outage provider collapsing the batch to absence, the flat single-ticker
download used directly, and the key list of the split result. -/
theorem get_multiple_stocks_spec_witness :
    get_multiple_stocks pDemo ["AAPL", "MSFT"] "90d" "1d" =
      some [("AAPL", Frame.flat [rowA]), ("MSFT", Frame.flat [rowM])] ∧
    get_multiple_stocks pBoom ["AAPL", "MSFT"] "90d" "1d" = none ∧
    get_multiple_stocks pFlat ["AAPL"] "90d" "1d" = some [("AAPL", Frame.flat [rowA])] ∧
    ([("AAPL", Frame.flat [rowA]), ("MSFT", Frame.flat [rowM])].map Prod.fst
      = ["AAPL", "MSFT"]) := by
  refine ⟨?_, ?_, ?_, ?_⟩
  · have h := (get_multiple_stocks_spec pDemo ["AAPL", "MSFT"] "90d" "1d"
        [("AAPL", [rowA]), ("MSFT", [rowM])]
        (fun t => if t = "AAPL" then [rowA] else [rowM])).2.1
      (by decide) rfl (by decide)
    simpa using h
  · exact (get_multiple_stocks_spec pBoom ["AAPL", "MSFT"] "90d" "1d" []
      (fun _ => [])).1 "boom" rfl
  · exact (get_multiple_stocks_spec pFlat ["AAPL"] "90d" "1d" []
      (fun _ => [])).2.2.1 "AAPL" (.flat [rowA]) rfl rfl
  · exact (get_multiple_stocks_spec pDemo ["AAPL", "MSFT"] "90d" "1d" []
      (fun _ => [])).2.2.2.2 [("AAPL", Frame.flat [rowA]), ("MSFT", Frame.flat [rowM])] rfl

/-- Claim C7 (confirmed): with `exchange=nse` the stock endpoint queries the
upstream with the path symbol suffixed by `.NS` — `RELIANCE` becomes
`RELIANCE.NS` both in the cache key and in the served data (the demo provider
serves `[rowNS]` only for `RELIANCE.NS`) — and the suffix is not appended
when the symbol already ends with it. -/
theorem exchange_suffix_applied :
    (∀ s : String, applyExchangeSuffix s (some "nse") =
      if pyEndsWith s ".NS" then s else s ++ ".NS") ∧
    applyExchangeSuffix "RELIANCE" (some "nse") = "RELIANCE.NS" ∧
    applyExchangeSuffix "RELIANCE.NS" (some "nse") = "RELIANCE.NS" ∧
    (get_stock_data_endpoint 1000 pNS [] "RELIANCE" "90d" "1d" (some "nse")).cache =
      [(("RELIANCE.NS", "90d", "1d"), some [rowNS])] ∧
    (get_stock_data_endpoint 1000 pNS [] "RELIANCE" "90d" "1d" (some "nse")).response =
      .ok ⟨"RELIANCE.NS", "Unknown", "Unknown", none, none, "90d", "1d", [rowNS]⟩ := by
  exact ⟨fun s => rfl, rfl, rfl, rfl, rfl⟩

/-- A cache already poisoned with the failure sentinel for
`("AAPL", "90d", "1d")`. -/
def poisonedCache : Cache := [(("AAPL", "90d", "1d"), none)]

/-- Claim C3 counterexample: with the sentinel already cached for the key,
the stock handler serves the entry from the cache (zero body invocations,
so no cache miss occurred) and nevertheless makes the direct uncached
fall-back provider call — the claim says that call is not made when the
cached fetch returns the failure sentinel. -/
theorem fallback_made_on_cached_sentinel :
    (get_stock_data_endpoint 1000 pBoom poisonedCache "AAPL" "90d" "1d" none).bodyCalls = 0 ∧
    (get_stock_data_endpoint 1000 pBoom poisonedCache "AAPL" "90d" "1d" none).fellBack = true := by
  exact ⟨rfl, rfl⟩

/-- Claim C3 amended (proved): in each instrument-series handler the direct
uncached fall-back provider call is made exactly when the memoized fetch
returns the failure sentinel `None` — whether freshly computed on a miss or
served from the cache (for the forex, index and mutual-fund handlers the
metadata call precedes the fetch, hence the success hypothesis on it). -/
theorem stock_fellBack_eq_body (maxsize : Nat) (p : Provider) (st : Cache)
    (symbol period intv : String) (exchange : Option String) :
    (get_stock_data_endpoint maxsize p st symbol period intv exchange).fellBack =
      (stock_endpoint_body maxsize p st symbol period intv exchange).2.2.1 := by
  rcases hb : stock_endpoint_body maxsize p st symbol period intv exchange with ⟨r, st1, fb, n⟩
  simp only [get_stock_data_endpoint, hb]
  cases r <;> rfl

theorem forex_fellBack_eq_body (maxsize : Nat) (p : Provider) (st : Cache)
    (pair period intv : String) :
    (get_forex_data maxsize p st pair period intv).fellBack =
      (forex_endpoint_body maxsize p st pair period intv).2.2.1 := by
  rcases hb : forex_endpoint_body maxsize p st pair period intv with ⟨r, st1, fb, n⟩
  simp only [get_forex_data, hb]
  cases r <;> rfl

theorem index_fellBack_eq_body (maxsize : Nat) (p : Provider) (st : Cache)
    (symbol period intv : String) :
    (get_index_data maxsize p st symbol period intv).fellBack =
      (index_endpoint_body maxsize p st symbol period intv).2.2.1 := by
  rcases hb : index_endpoint_body maxsize p st symbol period intv with ⟨r, st1, fb, n⟩
  simp only [get_index_data, hb]
  cases r <;> rfl

theorem fund_fellBack_eq_body (maxsize : Nat) (p : Provider) (st : Cache)
    (symbol period intv : String) :
    (get_mutual_fund_data maxsize p st symbol period intv).fellBack =
      (fund_endpoint_body maxsize p st symbol period intv).2.2.1 := by
  rcases hb : fund_endpoint_body maxsize p st symbol period intv with ⟨r, st1, fb, n⟩
  simp only [get_mutual_fund_data, hb]
  cases r <;> rfl

theorem fallback_iff_sentinel (maxsize : Nat) (p : Provider) (st : Cache)
    (symbol period intv : String) (exchange : Option String) (pair isym fsym : String) :
    (get_stock_data_endpoint maxsize p st symbol period intv exchange).fellBack =
      (get_stock_data_cached maxsize p st
        (applyExchangeSuffix symbol exchange, period, intv)).1.isNone ∧
    (∀ i, p.info (resolveForexSymbol pair) = .ok i →
      (get_forex_data maxsize p st pair period intv).fellBack =
        (get_stock_data_cached maxsize p st (resolveForexSymbol pair, period, intv)).1.isNone) ∧
    (∀ i, p.info ((dictGet INDICES_MAPPING (pyLower isym)).getD isym) = .ok i →
      (get_index_data maxsize p st isym period intv).fellBack =
        (get_stock_data_cached maxsize p st
          ((dictGet INDICES_MAPPING (pyLower isym)).getD isym, period, intv)).1.isNone) ∧
    (∀ i, p.info fsym = .ok i →
      (get_mutual_fund_data maxsize p st fsym period intv).fellBack =
        (get_stock_data_cached maxsize p st (fsym, period, intv)).1.isNone) := by
  refine ⟨?_, ?_, ?_, ?_⟩
  · rw [stock_fellBack_eq_body]
    simp only [stock_endpoint_body]
    repeat' split
    all_goals rfl
  · intro i hi
    rw [forex_fellBack_eq_body]
    simp only [forex_endpoint_body, hi]
    repeat' split
    all_goals rfl
  · intro i hi
    rw [index_fellBack_eq_body]
    simp only [index_endpoint_body, hi]
    repeat' split
    all_goals rfl
  · intro i hi
    rw [fund_fellBack_eq_body]
    simp only [fund_endpoint_body, hi]
    repeat' split
    all_goals rfl

/-- Witness for the amended C3, exercising all four handlers against the
outage provider (whose metadata call succeeds with `infoUnknown`). -/
theorem fallback_iff_sentinel_witness :
    (get_stock_data_endpoint 1000 pBoom poisonedCache "RELIANCE" "90d" "1d" none).fellBack =
      (get_stock_data_cached 1000 pBoom poisonedCache ("RELIANCE", "90d", "1d")).1.isNone ∧
    (get_forex_data 1000 pBoom poisonedCache "usd_inr" "90d" "1d").fellBack =
      (get_stock_data_cached 1000 pBoom poisonedCache
        (resolveForexSymbol "usd_inr", "90d", "1d")).1.isNone ∧
    (get_index_data 1000 pBoom poisonedCache "nifty50" "90d" "1d").fellBack =
      (get_stock_data_cached 1000 pBoom poisonedCache
        ((dictGet INDICES_MAPPING (pyLower "nifty50")).getD "nifty50", "90d", "1d")).1.isNone ∧
    (get_mutual_fund_data 1000 pBoom poisonedCache "0P0000XVOI.BO" "90d" "1d").fellBack =
      (get_stock_data_cached 1000 pBoom poisonedCache
        ("0P0000XVOI.BO", "90d", "1d")).1.isNone := by
  refine ⟨?_, ?_, ?_, ?_⟩
  · exact (fallback_iff_sentinel 1000 pBoom poisonedCache "RELIANCE" "90d" "1d" none
      "usd_inr" "nifty50" "0P0000XVOI.BO").1
  · exact (fallback_iff_sentinel 1000 pBoom poisonedCache "RELIANCE" "90d" "1d" none
      "usd_inr" "nifty50" "0P0000XVOI.BO").2.1 infoUnknown rfl
  · exact (fallback_iff_sentinel 1000 pBoom poisonedCache "RELIANCE" "90d" "1d" none
      "usd_inr" "nifty50" "0P0000XVOI.BO").2.2.1 infoUnknown rfl
  · exact (fallback_iff_sentinel 1000 pBoom poisonedCache "RELIANCE" "90d" "1d" none
      "usd_inr" "nifty50" "0P0000XVOI.BO").2.2.2 infoUnknown rfl

/-- Claim C1 (code-bug evidence): on an empty historical series every
instrument-series handler responds 500, not 404 — the internal 404
`HTTPException` is caught by the blanket `except Exception` and re-raised as
a 500 whose body is the string form of the caught exception.  The
other-exception half of the claim does hold: a raising provider yields 500
with the string form of the exception as the body (last conjunct). -/
theorem empty_series_yields_500 :
    (get_stock_data_endpoint 1000 pEmpty [] "AAPL" "90d" "1d" none).response =
      .err 500 (PyExn.str (.httpException 404 "No data found for AAPL.")) ∧
    (get_forex_data 1000 pEmpty [] "usd_inr" "90d" "1d").response =
      .err 500 (PyExn.str (.httpException 404 "No data found for forex pair usd_inr.")) ∧
    (get_index_data 1000 pEmpty [] "nifty50" "90d" "1d").response =
      .err 500 (PyExn.str (.httpException 404 "No data found for index nifty50.")) ∧
    (get_mutual_fund_data 1000 pEmpty [] "0P0000XVOI.BO" "90d" "1d").response =
      .err 500 (PyExn.str (.httpException 404 "No data found for mutual fund 0P0000XVOI.BO.")) ∧
    (get_stock_data_endpoint 1000 pEmpty [] "AAPL" "90d" "1d" none).response.status = 500 ∧
    (get_stock_data_endpoint 1000 pBoom [] "AAPL" "90d" "1d" none).response =
      .err 500 "boom" := by
  exact ⟨rfl, rfl, rfl, rfl, rfl, rfl⟩

/-- Claim C6 (confirmed): `/compare/?symbols=AAPL,MSFT` with a successful
grouped batch download returns the 200 payload whose data mapping has key
list exactly `[AAPL, MSFT]`, each value the record list of that symbol; and
in general, for more than one symbol, when the batch fetch yields nothing
the handler falls back to the raw ranged multi-symbol download reshaped per
OHLCV field. -/
theorem compare_spec (maxsize : Nat) (p : Provider) (st : Cache) (period intv : String)
    (sa sm : Series) :
    (p.download ["AAPL", "MSFT"] period intv =
        .ok (.grouped [("AAPL", sa), ("MSFT", sm)]) →
      compare_instruments maxsize p st "AAPL,MSFT" period intv =
        (.ok (.multi ["AAPL", "MSFT"] period intv [("AAPL", sa), ("MSFT", sm)]), st)) ∧
    (∀ (symbols : String) (symbol_list : List String) (mf : MultiFrame),
      (pySplitComma symbols).map pyStrip = symbol_list →
      symbol_list.length > 1 →
      get_multiple_stocks p symbol_list period intv = none →
      p.downloadRange symbol_list (get_date_range p.now period).1 (get_date_range p.now period).2
        intv = .ok mf →
      mf.empty = false →
      compare_instruments maxsize p st symbols period intv =
        (.ok (.multi symbol_list period intv
          (OHLCV_FIELDS.filterMap (fun f => (dictGet mf f).map (fun s => (f, s))))), st)) := by
  constructor
  · intro hdl
    have hs : (pySplitComma "AAPL,MSFT").map pyStrip = ["AAPL", "MSFT"] := by decide
    have hgm : get_multiple_stocks p ["AAPL", "MSFT"] period intv =
        some [("AAPL", Frame.flat sa), ("MSFT", Frame.flat sm)] := by
      simp [get_multiple_stocks, hdl, collectResults, frameGet, dictGet, Except.map]
    simp [compare_instruments, compare_body, hs, hgm, Frame.toRecords]
  · intro symbols symbol_list mf hsl hlen hgm hdl hne
    simp [compare_instruments, compare_body, compare_fallback, hsl, hlen, hgm, hdl, hne]

/-- Witness for C6: the demo provider serving the grouped `AAPL`/`MSFT`
download (preferred batch path), and the fall-back provider driving the
per-field reshape, both with the source capacity 1000 and an empty cache. -/
theorem compare_spec_witness :
    compare_instruments 1000 pDemo [] "AAPL,MSFT" "90d" "1d" =
      (.ok (.multi ["AAPL", "MSFT"] "90d" "1d" [("AAPL", [rowA]), ("MSFT", [rowM])]), []) ∧
    compare_instruments 1000 pFallback [] "AAPL,MSFT" "90d" "1d" =
      (.ok (.multi ["AAPL", "MSFT"] "90d" "1d"
        (OHLCV_FIELDS.filterMap
          (fun f => (dictGet [("Close", [rowA])] f).map (fun s => (f, s))))), []) := by
  refine ⟨?_, ?_⟩
  · exact (compare_spec 1000 pDemo [] "90d" "1d" [rowA] [rowM]).1 rfl
  · exact (compare_spec 1000 pFallback [] "90d" "1d" [] []).2 "AAPL,MSFT"
      ["AAPL", "MSFT"] [("Close", [rowA])] (by decide) (by decide) rfl rfl rfl

end Backend
